import Mathlib

/-
Verification development for the Mila-Assist retrieval service.

This file gives a shallow embedding of the FAISS index manager
(deploy-nas/llm-service/src/faiss_manager.py), the auto-sync subsystem
(deploy-nas/llm-service/src/auto_sync.py) and the confidence computation of
the retrieval pipeline (deploy-nas/llm-service/src/llm_server.py), and
proves or refutes the specified properties of these components.

Modelling conventions:
- embedding vectors are lists of rationals; the FAISS library calls
  (IndexFlatIP search, normalize_L2) are external C++ code, so they enter
  the embedding as function parameters constrained only by their
  documented shape contracts;
- the on-disk layout is the pair of coupled artifacts (structure file and
  id-mapping file); a file is absent, unreadable (corrupt), or holds a
  value;
- wall-clock timestamps are naturals (seconds); MySQL observations reach
  the synchronizer as an explicit poll-input record;
- Python exceptions are Except values; catching corresponds to matching.
-/

namespace MilaAssist

/-- An embedding vector, as the list of its coordinates.  The source keeps
numpy float arrays; coordinates are modelled as rationals. -/
abbrev Vec := List Rat

/-- Default of the FAISS_TOP_K environment variable (faiss_manager.py line 26). -/
def FAISS_TOP_K : Nat := 3

/-- Default of the EMBEDDINGS_DIMENSION environment variable (faiss_manager.py line 27). -/
def EMBEDDINGS_DIMENSION : Nat := 768

/-- In-memory state of class IndexFAISS (faiss_manager.py lines 40-76): the
vector dimension, the backing FAISS structure (modelled by the list of the
vectors it holds, in insertion order), and the ordered MySQL id mapping. -/
structure IndexFAISS where
  dimension : Nat
  index : List Vec
  id_mapping : List Int
  deriving Repr, DecidableEq

/-- Property ntotal (faiss_manager.py lines 386-389): number of vectors in
the backing structure. -/
def IndexFAISS.ntotal (s : IndexFAISS) : Nat := s.index.length

/-- Embedding of IndexFAISS._creer_index (faiss_manager.py lines 78-91):
a fresh IndexFlatIP of the given dimension with an empty id mapping. -/
def creer_index (dimension : Nat) : IndexFAISS :=
  { dimension := dimension, index := [], id_mapping := [] }

/-- State of one on-disk file: absent, unreadable, or holding a value. -/
inductive FileState (α : Type) where
  | absent
  | corrupt
  | content (a : α)
  deriving Repr, DecidableEq

/-- The two coupled on-disk artifacts: the FAISS structure file (stored with
its own dimension and vectors) and the id-mapping JSON file. -/
structure Disk where
  indexFile : FileState (Nat × List Vec)
  mappingFile : FileState (List Int)
  deriving Repr, DecidableEq

/-- Embedding of IndexFAISS._charger_index (faiss_manager.py lines 93-142),
with the configured dimension as first argument.  An absent structure file
creates a fresh empty index (lines 100-104); a read failure of either file
is caught by the enclosing handler which creates a fresh empty index
(lines 139-142); an absent mapping file only resets the mapping to []
(lines 115-118); a loaded dimension different from the configured one is
adopted with a warning (lines 121-126); a mapping/ntotal mismatch is only
logged (lines 128-133). -/
def charger_index (dimension : Nat) (d : Disk) : IndexFAISS :=
  match d.indexFile with
  | .absent => creer_index dimension
  | .corrupt => creer_index dimension
  | .content (di, vs) =>
    match d.mappingFile with
    | .corrupt => creer_index dimension
    | .absent =>
      { dimension := if di ≠ dimension then di else dimension,
        index := vs, id_mapping := [] }
    | .content m =>
      { dimension := if di ≠ dimension then di else dimension,
        index := vs, id_mapping := m }

/-- Embedding of IndexFAISS.rechercher (faiss_manager.py lines 144-211).
Parameters srch and normalize stand for the external FAISS library calls
index.search and normalize_L2.  A missing or zero k falls back to
FAISS_TOP_K (Python `k or FAISS_TOP_K`, line 170); k is clamped to ntotal
(line 178); an empty effective k returns the sentinel pair
([[0.0]], [[-1]]) before any dimension check (lines 186-188); a query
whose length differs from the index dimension raises (lines 195-199),
surfaced as an error value. -/
def rechercher (srch : List Vec → Vec → Nat → List Rat × List Int)
    (normalize : Vec → Vec) (s : IndexFAISS) (vecteur_requete : Vec)
    (k : Option Nat) : Except String (List Rat × List Int) :=
  let k0 := match k with
    | none => FAISS_TOP_K
    | some n => if n = 0 then FAISS_TOP_K else n
  let k_effective := min k0 s.ntotal
  if k_effective = 0 then
    .ok ([0], [-1])
  else if vecteur_requete.length ≠ s.dimension then
    .error "Erreur recherche FAISS: dimension du vecteur differente de la dimension attendue"
  else
    .ok (srch s.index (normalize vecteur_requete) k_effective)

/-- Embedding of IndexFAISS.ajouter_vecteurs (faiss_manager.py lines
213-251).  Raises when the id list and the vector batch have different
lengths (lines 234-235); otherwise normalizes on request, appends the
batch to the backing structure and extends the id mapping. -/
def ajouter_vecteurs (normalize : Vec → Vec) (s : IndexFAISS)
    (vecteurs : List Vec) (ids : List Int) (normaliser : Bool) :
    Except String IndexFAISS :=
  if ids.length ≠ vecteurs.length then
    .error "Erreur ajout vecteurs FAISS: nombre de IDs different du nombre de vecteurs"
  else
    let vs := if normaliser then vecteurs.map normalize else vecteurs
    .ok { s with index := s.index ++ vs, id_mapping := s.id_mapping ++ ids }

/-- On-disk state right after the first write of IndexFAISS.sauvegarder,
faiss.write_index to the final index path (faiss_manager.py line 270):
the structure file holds the new index, the mapping file is untouched. -/
def sauvegarder_apres_index (s : IndexFAISS) (d : Disk) : Disk :=
  { d with indexFile := .content (s.dimension, s.index) }

/-- On-disk state after the second write of IndexFAISS.sauvegarder,
json.dump of the id mapping to the final mapping path (faiss_manager.py
lines 273-275). -/
def sauvegarder_final (s : IndexFAISS) (d : Disk) : Disk :=
  { sauvegarder_apres_index s d with mappingFile := .content s.id_mapping }

/-- The sequence of on-disk states reachable during
IndexFAISS.sauvegarder (faiss_manager.py lines 253-283): initial state,
state after faiss.write_index at the final index path, state after
json.dump at the final mapping path.  The source writes both artifacts
directly at their final destinations; it uses no temporary path and no
rename step. -/
def sauvegarder_states (s : IndexFAISS) (d : Disk) : List Disk :=
  [d, sauvegarder_apres_index s d, sauvegarder_final s d]

/-- Statistics dictionary returned by rebuild_depuis_mysql
(faiss_manager.py lines 340-342 and 368-374); the timing and file-size
entries are not modelled. -/
structure Stats where
  success : Bool
  raison : Option String
  nombre_vecteurs : Option Nat
  deriving Repr, DecidableEq

/-- Environment of one rebuild run: whether the MySQL connection and the
source query succeed, the active rows (id, question, reponse) ordered by
id, whether the batch encoding succeeds, and whether the save succeeds. -/
structure RebuildEnv where
  queryOk : Bool
  rows : List (Int × String × String)
  encodeOk : Bool
  saveOk : Bool
  deriving Repr, DecidableEq

/-- Result of one rebuild run: the returned statistics or the raised
error, together with the in-memory index state and the on-disk state
after the run. -/
structure RebuildResult where
  outcome : Except String Stats
  state : IndexFAISS
  disk : Disk

/-- Texts encoded during a rebuild (faiss_manager.py line 350): question
and answer of each active row, joined by a space. -/
def rebuild_textes (rows : List (Int × String × String)) : List String :=
  rows.map (fun r => r.2.1 ++ " " ++ r.2.2)

/-- Ids collected during a rebuild (faiss_manager.py line 351). -/
def rebuild_ids (rows : List (Int × String × String)) : List Int :=
  rows.map (fun r => r.1)

/-- Embedding of IndexFAISS.rebuild_depuis_mysql (faiss_manager.py lines
305-384).  A connection or query failure raises before anything is
touched (lines 322-338); an empty row set returns success = false with
raison, before the index is re-created (lines 340-342); otherwise
self._creer_index() replaces the live index with a fresh empty one IN
PLACE (line 347), the rows are batch-encoded (line 354) - a failure there
raises with the emptied index left published - the embeddings are added
with their ids (line 357), and sauvegarder writes both artifacts
(line 360) - a save failure raises with the fully rebuilt index already
published in memory. -/
def rebuild_depuis_mysql (normalize : Vec → Vec)
    (encode : List String → List Vec) (s : IndexFAISS) (d : Disk)
    (env : RebuildEnv) : RebuildResult :=
  if env.queryOk = false then
    { outcome := .error "Erreur rebuild FAISS: connexion MySQL", state := s, disk := d }
  else if env.rows = [] then
    { outcome := .ok { success := false, raison := some "Base de donnees vide",
                       nombre_vecteurs := none },
      state := s, disk := d }
  else
    let s1 := creer_index s.dimension
    let textes := rebuild_textes env.rows
    let ids := rebuild_ids env.rows
    if env.encodeOk = false then
      { outcome := .error "Erreur rebuild FAISS: echec encodeur", state := s1, disk := d }
    else
      match ajouter_vecteurs normalize s1 (encode textes) ids true with
      | .error e => { outcome := .error e, state := s1, disk := d }
      | .ok s2 =>
        if env.saveOk = false then
          { outcome := .error "Erreur rebuild FAISS: echec sauvegarde", state := s2, disk := d }
        else
          { outcome := .ok { success := true, raison := none,
                             nombre_vecteurs := some env.rows.length },
            state := s2, disk := sauvegarder_final s2 d }

/-- Minimum interval between two rebuilds (auto_sync.py line 76). -/
def rebuild_min_interval_seconds : Nat := 300

/-- Default of the AUTO_SYNC_MYSQL_UPTIME_THRESHOLD environment variable
(auto_sync.py line 44). -/
def AUTO_SYNC_MYSQL_UPTIME_THRESHOLD : Nat := 300

/-- Synchronizer state (auto_sync.py lines 69-76): baseline of the last
observed MAX(last_update), the in-progress flag, and the time of the last
rebuild attempt. -/
structure SyncState where
  last_update_timestamp : Option Nat
  rebuild_en_cours : Bool
  dernier_rebuild_timestamp : Option Nat
  deriving Repr, DecidableEq

/-- Result of a trigger check or a rebuild request: the new synchronizer
state and whether rebuild_depuis_mysql was actually invoked. -/
structure DeclResult where
  state : SyncState
  rebuilt : Bool
  deriving Repr, DecidableEq

/-- Embedding of FAISSAutoSync._declencher_rebuild (auto_sync.py lines
214-251).  Skips when a rebuild is in progress (lines 221-223); drops the
request, changing nothing, when less than rebuild_min_interval_seconds
elapsed since the last rebuild (lines 226-232); otherwise records now as
the last rebuild time and runs the rebuild.  rebuildOk tells whether
rebuild_depuis_mysql succeeds; its exceptions are caught (lines 247-248)
and the in-progress flag is cleared in a finally block (lines 250-251),
so the resulting state does not depend on rebuildOk. -/
def declencher_rebuild (s : SyncState) (now : Nat) (rebuildOk : Bool) : DeclResult :=
  if s.rebuild_en_cours then
    { state := s, rebuilt := false }
  else
    match s.dernier_rebuild_timestamp with
    | some t =>
      if now - t < rebuild_min_interval_seconds then
        { state := s, rebuilt := false }
      else
        { state := { s with dernier_rebuild_timestamp := some now }, rebuilt := true }
    | none =>
      { state := { s with dernier_rebuild_timestamp := some now }, rebuilt := true }

/-- One poll observation (auto_sync.py lines 131-177): whether the index
file exists on disk, whether the MySQL connection and queries succeed,
the reported MySQL uptime row, and the reported MAX(last_update) over
active rows (none when NULL). -/
structure PollInput where
  indexExists : Bool
  mysqlOk : Bool
  uptime : Option Nat
  dernier_changement : Option Nat
  deriving Repr, DecidableEq

/-- Embedding of trigger 3, the modification rule of
FAISSAutoSync._verifier_triggers (auto_sync.py lines 168-204).  The first
observation only records the baseline and returns (lines 184-189); a
strictly greater observation requests a rebuild and then advances the
baseline unconditionally (lines 192-201); otherwise nothing changes. -/
def verifier_trigger3 (s : SyncState) (now : Nat) (inp : PollInput)
    (rebuildOk : Bool) : DeclResult :=
  match inp.dernier_changement with
  | some dernier_changement =>
    match s.last_update_timestamp with
    | none =>
      { state := { s with last_update_timestamp := some dernier_changement },
        rebuilt := false }
    | some t0 =>
      if t0 < dernier_changement then
        let r := declencher_rebuild s now rebuildOk
        { state := { r.state with last_update_timestamp := some dernier_changement },
          rebuilt := r.rebuilt }
      else
        { state := s, rebuilt := false }
  | none => { state := s, rebuilt := false }

/-- Embedding of FAISSAutoSync._verifier_triggers (auto_sync.py lines
125-212).  Skips entirely while a rebuild is in progress (lines 127-129);
trigger 1 fires when the index file is absent (lines 133-136); a MySQL
connection failure is logged and the poll ends (lines 209-212); trigger 2
fires when the reported uptime is below the threshold (lines 151-164);
otherwise trigger 3 is evaluated. -/
def verifier_triggers (s : SyncState) (now : Nat) (inp : PollInput)
    (rebuildOk : Bool) : DeclResult :=
  if s.rebuild_en_cours then
    { state := s, rebuilt := false }
  else if inp.indexExists = false then
    declencher_rebuild s now rebuildOk
  else if inp.mysqlOk = false then
    { state := s, rebuilt := false }
  else
    match inp.uptime with
    | some uptime_seconds =>
      if uptime_seconds < AUTO_SYNC_MYSQL_UPTIME_THRESHOLD then
        declencher_rebuild s now rebuildOk
      else
        verifier_trigger3 s now inp rebuildOk
    | none => verifier_trigger3 s now inp rebuildOk

/-- Embedding of the confidence normalization of rechercher_et_generer
(llm_server.py lines 241-245): the raw top-1 similarity is rescaled by
(raw + 1) / 2 and clamped into [0, 1]. -/
def confiance (raw_score : Rat) : Rat :=
  max 0 (min 1 ((raw_score + 1) / 2))

/-!  Helper lemmas shared by the claim theorems.  -/

/-- A rebuild request arriving within the minimum interval changes nothing:
the request is dropped, not queued. -/
theorem declencher_rebuild_drop (s : SyncState) (now t : Nat) (ok : Bool)
    (hlast : s.dernier_rebuild_timestamp = some t)
    (hwin : now - t < rebuild_min_interval_seconds) :
    declencher_rebuild s now ok = { state := s, rebuilt := false } := by
  unfold declencher_rebuild
  rw [hlast]
  by_cases hc : s.rebuild_en_cours <;> simp [hc, hwin]

/-- A rebuild request arriving with no rebuild in progress and the minimum
interval elapsed (or no previous rebuild) runs the rebuild and records its
start time. -/
theorem declencher_rebuild_go (s : SyncState) (now : Nat) (ok : Bool)
    (hrc : s.rebuild_en_cours = false)
    (hready : s.dernier_rebuild_timestamp = none ∨
      ∃ tr, s.dernier_rebuild_timestamp = some tr ∧
        rebuild_min_interval_seconds ≤ now - tr) :
    declencher_rebuild s now ok =
      { state := { s with dernier_rebuild_timestamp := some now }, rebuilt := true } := by
  unfold declencher_rebuild
  rw [hrc]
  rcases hready with h | ⟨tr, h1, h2⟩
  · rw [h]
    simp
  · rw [h1]
    simp [Nat.not_lt.2 h2]

/-- The in-progress flag is restored by the finally block: a rebuild
request never changes it. -/
theorem declencher_rebuild_en_cours (s : SyncState) (now : Nat) (ok : Bool) :
    (declencher_rebuild s now ok).state.rebuild_en_cours = s.rebuild_en_cours := by
  rcases s with ⟨lu, rc, dr⟩
  cases rc <;> cases dr <;> simp [declencher_rebuild] <;> split <;> rfl

/-- A rebuild request never changes the observed-timestamp baseline. -/
theorem declencher_rebuild_baseline (s : SyncState) (now : Nat) (ok : Bool) :
    (declencher_rebuild s now ok).state.last_update_timestamp = s.last_update_timestamp := by
  rcases s with ⟨lu, rc, dr⟩
  cases rc <;> cases dr <;> simp [declencher_rebuild] <;> split <;> rfl

/-- A poll with the index file present, MySQL reachable and an uptime at or
above the threshold falls through to the modification rule. -/
theorem verifier_reaches_trigger3 (s : SyncState) (now : Nat) (inp : PollInput)
    (ok : Bool) (hrc : s.rebuild_en_cours = false) (hie : inp.indexExists = true)
    (hmo : inp.mysqlOk = true)
    (hup : ∀ u, inp.uptime = some u → AUTO_SYNC_MYSQL_UPTIME_THRESHOLD ≤ u) :
    verifier_triggers s now inp ok = verifier_trigger3 s now inp ok := by
  unfold verifier_triggers
  rw [hrc, hie, hmo]
  cases hu : inp.uptime with
  | none => simp
  | some u => simp [Nat.not_lt.2 (hup u hu)]

/-- First observation of the modification rule: the baseline is recorded
and no rebuild is requested. -/
theorem verifier_trigger3_premiere (s : SyncState) (now : Nat) (inp : PollInput)
    (ok : Bool) (dc : Nat) (hdc : inp.dernier_changement = some dc)
    (hbase : s.last_update_timestamp = none) :
    verifier_trigger3 s now inp ok =
      { state := { s with last_update_timestamp := some dc }, rebuilt := false } := by
  unfold verifier_trigger3
  rw [hdc, hbase]

/-- A strictly greater observation requests a rebuild and then advances the
baseline, whatever the request outcome. -/
theorem verifier_trigger3_fires (s : SyncState) (now : Nat) (inp : PollInput)
    (ok : Bool) (dc t0 : Nat) (hdc : inp.dernier_changement = some dc)
    (hbase : s.last_update_timestamp = some t0) (hlt : t0 < dc) :
    verifier_trigger3 s now inp ok =
      { state := { (declencher_rebuild s now ok).state with
                   last_update_timestamp := some dc },
        rebuilt := (declencher_rebuild s now ok).rebuilt } := by
  unfold verifier_trigger3
  rw [hdc, hbase]
  simp [hlt]

/-- An observation not strictly greater than the baseline changes nothing. -/
theorem verifier_trigger3_sans_changement (s : SyncState) (now : Nat)
    (inp : PollInput) (ok : Bool) (dc t0 : Nat)
    (hdc : inp.dernier_changement = some dc)
    (hbase : s.last_update_timestamp = some t0) (hge : ¬ t0 < dc) :
    verifier_trigger3 s now inp ok = { state := s, rebuilt := false } := by
  unfold verifier_trigger3
  rw [hdc, hbase]
  simp [hge]

/-- While a rebuild is in progress the whole poll is skipped. -/
theorem verifier_triggers_en_cours (s : SyncState) (now : Nat) (inp : PollInput)
    (ok : Bool) (h : s.rebuild_en_cours = true) :
    verifier_triggers s now inp ok = { state := s, rebuilt := false } := by
  unfold verifier_triggers
  rw [h]
  simp

/-- Trigger 1: an absent index file requests a rebuild directly. -/
theorem verifier_triggers_trigger1 (s : SyncState) (now : Nat) (inp : PollInput)
    (ok : Bool) (hrc : s.rebuild_en_cours = false)
    (hie : inp.indexExists = false) :
    verifier_triggers s now inp ok = declencher_rebuild s now ok := by
  unfold verifier_triggers
  rw [hrc, hie]
  simp

/-- A MySQL connection failure ends the poll without any state change. -/
theorem verifier_triggers_mysql_fail (s : SyncState) (now : Nat) (inp : PollInput)
    (ok : Bool) (hrc : s.rebuild_en_cours = false) (hie : inp.indexExists = true)
    (hmo : inp.mysqlOk = false) :
    verifier_triggers s now inp ok = { state := s, rebuilt := false } := by
  unfold verifier_triggers
  rw [hrc, hie, hmo]
  simp

/-- Trigger 2: an uptime below the threshold requests a rebuild directly. -/
theorem verifier_triggers_trigger2 (s : SyncState) (now : Nat) (inp : PollInput)
    (ok : Bool) (u : Nat) (hrc : s.rebuild_en_cours = false)
    (hie : inp.indexExists = true) (hmo : inp.mysqlOk = true)
    (hu : inp.uptime = some u) (hlt : u < AUTO_SYNC_MYSQL_UPTIME_THRESHOLD) :
    verifier_triggers s now inp ok = declencher_rebuild s now ok := by
  unfold verifier_triggers
  rw [hrc, hie, hmo, hu]
  simp [hlt]

/-- A NULL MAX(last_update) observation changes nothing in the
modification rule. -/
theorem verifier_trigger3_sans_observation (s : SyncState) (now : Nat)
    (inp : PollInput) (ok : Bool) (hdc : inp.dernier_changement = none) :
    verifier_trigger3 s now inp ok = { state := s, rebuilt := false } := by
  unfold verifier_trigger3
  rw [hdc]

/-- Within the anti-thrash window the modification rule never runs a
rebuild and never touches the last-rebuild time. -/
theorem verifier_trigger3_drop_fields (s : SyncState) (now t : Nat)
    (inp : PollInput) (ok : Bool)
    (hlast : s.dernier_rebuild_timestamp = some t)
    (hwin : now - t < rebuild_min_interval_seconds) :
    (verifier_trigger3 s now inp ok).rebuilt = false ∧
    (verifier_trigger3 s now inp ok).state.dernier_rebuild_timestamp = some t := by
  have hd := declencher_rebuild_drop s now t ok hlast hwin
  rcases hdc : inp.dernier_changement with _ | dc
  · rw [verifier_trigger3_sans_observation s now inp ok hdc]
    exact ⟨rfl, hlast⟩
  · rcases hbase : s.last_update_timestamp with _ | t0
    · rw [verifier_trigger3_premiere s now inp ok dc hdc hbase]
      exact ⟨rfl, hlast⟩
    · by_cases hlt : t0 < dc
      · rw [verifier_trigger3_fires s now inp ok dc t0 hdc hbase hlt, hd]
        exact ⟨rfl, hlast⟩
      · rw [verifier_trigger3_sans_changement s now inp ok dc t0 hdc hbase hlt]
        exact ⟨rfl, hlast⟩

/-- Adding a batch whose id list matches its length appends both parallel
arrays. -/
theorem ajouter_vecteurs_ok (normalize : Vec → Vec) (s : IndexFAISS)
    (vecteurs : List Vec) (ids : List Int) (b : Bool)
    (h : ids.length = vecteurs.length) :
    ajouter_vecteurs normalize s vecteurs ids b =
      .ok { s with
            index := s.index ++ (if b then vecteurs.map normalize else vecteurs),
            id_mapping := s.id_mapping ++ ids } := by
  unfold ajouter_vecteurs
  simp [h]

/-- A rebuild whose source query fails raises before touching anything. -/
theorem rebuild_query_fail (normalize : Vec → Vec)
    (encode : List String → List Vec) (s : IndexFAISS) (d : Disk)
    (env : RebuildEnv) (hq : env.queryOk = false) :
    rebuild_depuis_mysql normalize encode s d env =
      { outcome := .error "Erreur rebuild FAISS: connexion MySQL",
        state := s, disk := d } := by
  unfold rebuild_depuis_mysql
  rw [hq]
  simp

/-- A rebuild whose batch encoding fails raises after the live index has
already been replaced in place by a fresh empty one. -/
theorem rebuild_encode_fail (normalize : Vec → Vec)
    (encode : List String → List Vec) (s : IndexFAISS) (d : Disk)
    (env : RebuildEnv) (hq : env.queryOk = true) (hr : env.rows ≠ [])
    (he : env.encodeOk = false) :
    rebuild_depuis_mysql normalize encode s d env =
      { outcome := .error "Erreur rebuild FAISS: echec encodeur",
        state := creer_index s.dimension, disk := d } := by
  unfold rebuild_depuis_mysql
  rw [hq, he]
  simp [hr]

/-- A rebuild whose save fails raises with the fully rebuilt index already
published in memory and the on-disk artifacts untouched. -/
theorem rebuild_save_fail (normalize : Vec → Vec)
    (encode : List String → List Vec) (s : IndexFAISS) (d : Disk)
    (env : RebuildEnv) (hq : env.queryOk = true) (hr : env.rows ≠ [])
    (he : env.encodeOk = true)
    (hlen : (encode (rebuild_textes env.rows)).length = env.rows.length)
    (hs : env.saveOk = false) :
    rebuild_depuis_mysql normalize encode s d env =
      { outcome := .error "Erreur rebuild FAISS: echec sauvegarde",
        state := { dimension := s.dimension,
                   index := (encode (rebuild_textes env.rows)).map normalize,
                   id_mapping := rebuild_ids env.rows },
        disk := d } := by
  have hlen2 : (rebuild_ids env.rows).length =
      (encode (rebuild_textes env.rows)).length := by
    rw [hlen]
    exact List.length_map _ _
  unfold rebuild_depuis_mysql
  rw [hq, he, hs]
  simp only [Bool.true_eq_false, if_false, hr, ite_false]
  rw [ajouter_vecteurs_ok normalize (creer_index s.dimension) _ _ true hlen2]
  simp [creer_index]

/-- A rebuild in which every step succeeds returns success statistics,
publishes the rebuilt index and writes both artifacts. -/
theorem rebuild_all_ok (normalize : Vec → Vec)
    (encode : List String → List Vec) (s : IndexFAISS) (d : Disk)
    (env : RebuildEnv) (hq : env.queryOk = true) (hr : env.rows ≠ [])
    (he : env.encodeOk = true)
    (hlen : (encode (rebuild_textes env.rows)).length = env.rows.length)
    (hs : env.saveOk = true) :
    rebuild_depuis_mysql normalize encode s d env =
      { outcome := .ok { success := true, raison := none,
                         nombre_vecteurs := some env.rows.length },
        state := { dimension := s.dimension,
                   index := (encode (rebuild_textes env.rows)).map normalize,
                   id_mapping := rebuild_ids env.rows },
        disk := sauvegarder_final
          { dimension := s.dimension,
            index := (encode (rebuild_textes env.rows)).map normalize,
            id_mapping := rebuild_ids env.rows } d } := by
  have hlen2 : (rebuild_ids env.rows).length =
      (encode (rebuild_textes env.rows)).length := by
    rw [hlen]
    exact List.length_map _ _
  unfold rebuild_depuis_mysql
  rw [hq, hs]
  simp only [Bool.true_eq_false, if_false, hr, ite_false, he]
  rw [ajouter_vecteurs_ok normalize (creer_index s.dimension) _ _ true hlen2]
  simp [creer_index]

/-!  Claim theorems.  -/

/-- C8: for every raw top-1 similarity score s in [-1, 1], including the
boundary values, the confidence computed by the retrieval pipeline equals
(s + 1) / 2 clamped to [0, 1] (the clamp being the identity on this
range), and therefore always lies within [0, 1]. -/
theorem C8_confiance_rescale_clamp (s : Rat) (h1 : -1 ≤ s) (h2 : s ≤ 1) :
    confiance s = (s + 1) / 2 ∧ 0 ≤ confiance s ∧ confiance s ≤ 1 := by
  unfold confiance
  have hl : (0 : Rat) ≤ (s + 1) / 2 := by linarith
  have hr : (s + 1) / 2 ≤ (1 : Rat) := by linarith
  refine ⟨?_, le_max_left 0 _, max_le (by norm_num) (min_le_left _ _)⟩
  rw [min_eq_right hr, max_eq_right hl]

/-- Witness for C8 at the boundary values -1, 0 and 1. -/
theorem C8_confiance_rescale_clamp_witness :
    confiance (-1) = (-1 + 1) / 2 ∧ (0 ≤ confiance 0 ∧ confiance 0 ≤ 1) ∧
      confiance 1 = (1 + 1) / 2 :=
  ⟨(C8_confiance_rescale_clamp (-1) (by norm_num) (by norm_num)).1,
   (C8_confiance_rescale_clamp 0 (by norm_num) (by norm_num)).2,
   (C8_confiance_rescale_clamp 1 (by norm_num) (by norm_num)).1⟩

/-- C10: a rebuild run in which the source query succeeds but returns zero
active rows returns success = false (with the emptiness reason) without
raising, and leaves the in-memory index and the on-disk artifacts exactly
as they were: the emptiness check precedes the index re-creation and the
save. -/
theorem C10_rebuild_source_vide (normalize : Vec → Vec)
    (encode : List String → List Vec) (s : IndexFAISS) (d : Disk)
    (env : RebuildEnv) (hq : env.queryOk = true) (hr : env.rows = []) :
    (rebuild_depuis_mysql normalize encode s d env).outcome =
      .ok { success := false, raison := some "Base de donnees vide",
            nombre_vecteurs := none } ∧
    (rebuild_depuis_mysql normalize encode s d env).state = s ∧
    (rebuild_depuis_mysql normalize encode s d env).disk = d := by
  unfold rebuild_depuis_mysql
  rw [hq, hr]
  simp

/-- Witness for C10 on a concrete empty source. -/
theorem C10_rebuild_source_vide_witness :
    (rebuild_depuis_mysql id (fun _ => []) (creer_index 768)
      { indexFile := .absent, mappingFile := .absent }
      { queryOk := true, rows := [], encodeOk := true, saveOk := true }).state =
      creer_index 768 :=
  (C10_rebuild_source_vide id (fun _ => []) (creer_index 768)
    { indexFile := .absent, mappingFile := .absent }
    { queryOk := true, rows := [], encodeOk := true, saveOk := true } rfl rfl).2.1

/-- C5: a rebuild trigger firing less than rebuild_min_interval_seconds
after the previous rebuild performs no rebuild and leaves the last-rebuild
time untouched (dropped, not queued), whichever of the three trigger rules
fired; and of two modification triggers firing within the window only the
first causes a rebuild. -/
theorem C5_anti_thrash_guard :
    (∀ (s : SyncState) (now t : Nat) (inp : PollInput) (ok : Bool),
      s.dernier_rebuild_timestamp = some t →
      now - t < rebuild_min_interval_seconds →
      (verifier_triggers s now inp ok).rebuilt = false ∧
      (verifier_triggers s now inp ok).state.dernier_rebuild_timestamp = some t) ∧
    (∀ (t0 t1 t2 now1 now2 u1 u2 : Nat) (ok1 ok2 : Bool),
      t0 < t1 → t1 < t2 →
      AUTO_SYNC_MYSQL_UPTIME_THRESHOLD ≤ u1 →
      AUTO_SYNC_MYSQL_UPTIME_THRESHOLD ≤ u2 →
      now2 - now1 < rebuild_min_interval_seconds →
      (verifier_triggers
          { last_update_timestamp := some t0, rebuild_en_cours := false,
            dernier_rebuild_timestamp := none } now1
          { indexExists := true, mysqlOk := true, uptime := some u1,
            dernier_changement := some t1 } ok1).rebuilt = true ∧
      (verifier_triggers
          (verifier_triggers
            { last_update_timestamp := some t0, rebuild_en_cours := false,
              dernier_rebuild_timestamp := none } now1
            { indexExists := true, mysqlOk := true, uptime := some u1,
              dernier_changement := some t1 } ok1).state now2
          { indexExists := true, mysqlOk := true, uptime := some u2,
            dernier_changement := some t2 } ok2).rebuilt = false) := by
  constructor
  · intro s now t inp ok hlast hwin
    have hd := declencher_rebuild_drop s now t ok hlast hwin
    cases hrc : s.rebuild_en_cours with
    | true =>
      rw [verifier_triggers_en_cours s now inp ok hrc]
      exact ⟨rfl, hlast⟩
    | false =>
      cases hie : inp.indexExists with
      | false =>
        rw [verifier_triggers_trigger1 s now inp ok hrc hie, hd]
        exact ⟨rfl, hlast⟩
      | true =>
        cases hmo : inp.mysqlOk with
        | false =>
          rw [verifier_triggers_mysql_fail s now inp ok hrc hie hmo]
          exact ⟨rfl, hlast⟩
        | true =>
          rcases hu : inp.uptime with _ | u
          · have h3 := verifier_reaches_trigger3 s now inp ok hrc hie hmo
              (by intro u hu2; rw [hu] at hu2; cases hu2)
            rw [h3]
            exact verifier_trigger3_drop_fields s now t inp ok hlast hwin
          · by_cases hul : u < AUTO_SYNC_MYSQL_UPTIME_THRESHOLD
            · rw [verifier_triggers_trigger2 s now inp ok u hrc hie hmo hu hul, hd]
              exact ⟨rfl, hlast⟩
            · have h3 := verifier_reaches_trigger3 s now inp ok hrc hie hmo
                (by intro v hv; rw [hu] at hv; cases hv; exact Nat.not_lt.1 hul)
              rw [h3]
              exact verifier_trigger3_drop_fields s now t inp ok hlast hwin
  · intro t0 t1 t2 now1 now2 u1 u2 ok1 ok2 h01 h12 hu1 hu2 hwin
    have hres1 : verifier_triggers
        { last_update_timestamp := some t0, rebuild_en_cours := false,
          dernier_rebuild_timestamp := none } now1
        { indexExists := true, mysqlOk := true, uptime := some u1,
          dernier_changement := some t1 } ok1 =
        { state := { last_update_timestamp := some t1, rebuild_en_cours := false,
                     dernier_rebuild_timestamp := some now1 }, rebuilt := true } := by
      rw [verifier_reaches_trigger3 _ _ _ _ rfl rfl rfl
            (by intro u hu; cases hu; exact hu1),
          verifier_trigger3_fires _ _ _ _ t1 t0 rfl rfl h01,
          declencher_rebuild_go _ _ _ rfl (Or.inl rfl)]
    rw [hres1]
    refine ⟨rfl, ?_⟩
    show (verifier_triggers
        { last_update_timestamp := some t1, rebuild_en_cours := false,
          dernier_rebuild_timestamp := some now1 } now2
        { indexExists := true, mysqlOk := true, uptime := some u2,
          dernier_changement := some t2 } ok2).rebuilt = false
    rw [verifier_reaches_trigger3 _ _ _ _ rfl rfl rfl
          (by intro u hu; cases hu; exact hu2),
        verifier_trigger3_fires _ _ _ _ t2 t1 rfl rfl h12,
        declencher_rebuild_drop _ _ now1 _ rfl hwin]

/-- Witness for C5: a concrete trigger arriving 10 seconds after a
rebuild is dropped, and of two concrete modification triggers 100 seconds
apart only the first rebuilds. -/
theorem C5_anti_thrash_guard_witness :
    ((verifier_triggers
        { last_update_timestamp := some 5, rebuild_en_cours := false,
          dernier_rebuild_timestamp := some 1000 } 1010
        { indexExists := false, mysqlOk := true, uptime := some 9999,
          dernier_changement := some 7 } true).rebuilt = false ∧
     (verifier_triggers
        { last_update_timestamp := some 5, rebuild_en_cours := false,
          dernier_rebuild_timestamp := some 1000 } 1010
        { indexExists := false, mysqlOk := true, uptime := some 9999,
          dernier_changement := some 7 } true).state.dernier_rebuild_timestamp =
        some 1000) ∧
    ((verifier_triggers
        { last_update_timestamp := some 10, rebuild_en_cours := false,
          dernier_rebuild_timestamp := none } 2000
        { indexExists := true, mysqlOk := true, uptime := some 400,
          dernier_changement := some 11 } true).rebuilt = true ∧
     (verifier_triggers
        (verifier_triggers
          { last_update_timestamp := some 10, rebuild_en_cours := false,
            dernier_rebuild_timestamp := none } 2000
          { indexExists := true, mysqlOk := true, uptime := some 400,
            dernier_changement := some 11 } true).state 2100
        { indexExists := true, mysqlOk := true, uptime := some 400,
          dernier_changement := some 12 } true).rebuilt = false) :=
  ⟨C5_anti_thrash_guard.1
      { last_update_timestamp := some 5, rebuild_en_cours := false,
        dernier_rebuild_timestamp := some 1000 } 1010 1000
      { indexExists := false, mysqlOk := true, uptime := some 9999,
        dernier_changement := some 7 } true rfl (by decide),
   C5_anti_thrash_guard.2 10 11 12 2000 2100 400 400 true true
      (by decide) (by decide) (by decide) (by decide) (by decide)⟩

/-- C6: on the first poll that observes a maximum last-modified timestamp
the synchronizer only records the baseline and does not rebuild; on a
later poll reaching the modification rule the rebuild request fires
exactly when the observation is strictly greater than the recorded
baseline (performed when the minimum interval has elapsed), and after it
fires the advanced baseline prevents the same observation from firing
again. -/
theorem C6_modification_rule :
    (∀ (s : SyncState) (now : Nat) (inp : PollInput) (ok : Bool) (dc : Nat),
      s.rebuild_en_cours = false → inp.indexExists = true → inp.mysqlOk = true →
      (∀ u, inp.uptime = some u → AUTO_SYNC_MYSQL_UPTIME_THRESHOLD ≤ u) →
      inp.dernier_changement = some dc → s.last_update_timestamp = none →
      verifier_triggers s now inp ok =
        { state := { s with last_update_timestamp := some dc }, rebuilt := false }) ∧
    (∀ (s : SyncState) (now : Nat) (inp : PollInput) (ok : Bool) (dc t0 : Nat),
      s.rebuild_en_cours = false → inp.indexExists = true → inp.mysqlOk = true →
      (∀ u, inp.uptime = some u → AUTO_SYNC_MYSQL_UPTIME_THRESHOLD ≤ u) →
      inp.dernier_changement = some dc → s.last_update_timestamp = some t0 →
      (s.dernier_rebuild_timestamp = none ∨
        ∃ tr, s.dernier_rebuild_timestamp = some tr ∧
          rebuild_min_interval_seconds ≤ now - tr) →
      ((verifier_triggers s now inp ok).rebuilt = true ↔ t0 < dc)) ∧
    (∀ (s : SyncState) (now : Nat) (inp : PollInput) (ok : Bool) (dc t0 : Nat),
      s.rebuild_en_cours = false → inp.indexExists = true → inp.mysqlOk = true →
      (∀ u, inp.uptime = some u → AUTO_SYNC_MYSQL_UPTIME_THRESHOLD ≤ u) →
      inp.dernier_changement = some dc → s.last_update_timestamp = some t0 →
      t0 < dc →
      (verifier_triggers s now inp ok).state.last_update_timestamp = some dc ∧
      (∀ (now2 : Nat) (inp2 : PollInput) (ok2 : Bool),
        inp2.indexExists = true → inp2.mysqlOk = true →
        (∀ u, inp2.uptime = some u → AUTO_SYNC_MYSQL_UPTIME_THRESHOLD ≤ u) →
        inp2.dernier_changement = some dc →
        (verifier_triggers (verifier_triggers s now inp ok).state now2 inp2
          ok2).rebuilt = false)) := by
  refine ⟨?_, ?_, ?_⟩
  · intro s now inp ok dc hrc hie hmo hup hdc hbase
    rw [verifier_reaches_trigger3 s now inp ok hrc hie hmo hup,
        verifier_trigger3_premiere s now inp ok dc hdc hbase]
  · intro s now inp ok dc t0 hrc hie hmo hup hdc hbase hready
    rw [verifier_reaches_trigger3 s now inp ok hrc hie hmo hup]
    by_cases hlt : t0 < dc
    · rw [verifier_trigger3_fires s now inp ok dc t0 hdc hbase hlt,
          declencher_rebuild_go s now ok hrc hready]
      simp [hlt]
    · rw [verifier_trigger3_sans_changement s now inp ok dc t0 hdc hbase hlt]
      simp [hlt]
  · intro s now inp ok dc t0 hrc hie hmo hup hdc hbase hlt
    have hstate : (verifier_triggers s now inp ok).state =
        { (declencher_rebuild s now ok).state with
          last_update_timestamp := some dc } := by
      rw [verifier_reaches_trigger3 s now inp ok hrc hie hmo hup,
          verifier_trigger3_fires s now inp ok dc t0 hdc hbase hlt]
    constructor
    · rw [hstate]
    · intro now2 inp2 ok2 hie2 hmo2 hup2 hdc2
      have hrc2 : (verifier_triggers s now inp ok).state.rebuild_en_cours = false := by
        rw [hstate]
        show (declencher_rebuild s now ok).state.rebuild_en_cours = false
        rw [declencher_rebuild_en_cours]
        exact hrc
      have hbase2 : (verifier_triggers s now inp ok).state.last_update_timestamp =
          some dc := by
        rw [hstate]
      rw [verifier_reaches_trigger3 _ now2 inp2 ok2 hrc2 hie2 hmo2 hup2,
          verifier_trigger3_sans_changement _ now2 inp2 ok2 dc dc hdc2 hbase2
            (lt_irrefl dc)]

/-- Witness for C6: a concrete first observation records the baseline
without rebuilding, and a concrete later strictly-greater observation
fires. -/
theorem C6_modification_rule_witness :
    verifier_triggers
      { last_update_timestamp := none, rebuild_en_cours := false,
        dernier_rebuild_timestamp := none } 100
      { indexExists := true, mysqlOk := true, uptime := some 500,
        dernier_changement := some 40 } true =
      { state := { last_update_timestamp := some 40, rebuild_en_cours := false,
                   dernier_rebuild_timestamp := none }, rebuilt := false } ∧
    ((verifier_triggers
      { last_update_timestamp := some 40, rebuild_en_cours := false,
        dernier_rebuild_timestamp := none } 200
      { indexExists := true, mysqlOk := true, uptime := some 500,
        dernier_changement := some 41 } true).rebuilt = true ↔ 40 < 41) :=
  ⟨C6_modification_rule.1
      { last_update_timestamp := none, rebuild_en_cours := false,
        dernier_rebuild_timestamp := none } 100
      { indexExists := true, mysqlOk := true, uptime := some 500,
        dernier_changement := some 40 } true 40 rfl rfl rfl
      (by intro u hu; cases hu; decide) rfl rfl,
   C6_modification_rule.2.1
      { last_update_timestamp := some 40, rebuild_en_cours := false,
        dernier_rebuild_timestamp := none } 200
      { indexExists := true, mysqlOk := true, uptime := some 500,
        dernier_changement := some 41 } true 41 40 rfl rfl rfl
      (by intro u hu; cases hu; decide) rfl rfl (Or.inl rfl)⟩

/-- C9: when the modification trigger fires, the baseline advances to the
newly observed maximum even if the rebuild request is dropped by the
anti-thrash guard or the rebuild itself fails (ok ranges over both);
consequently a later poll reaching the modification rule with an
observation not above that maximum performs no rebuild and changes
nothing. -/
theorem C9_baseline_advances_on_drop :
    (∀ (s : SyncState) (now : Nat) (inp : PollInput) (ok : Bool) (dc t0 : Nat),
      s.rebuild_en_cours = false → inp.indexExists = true → inp.mysqlOk = true →
      (∀ u, inp.uptime = some u → AUTO_SYNC_MYSQL_UPTIME_THRESHOLD ≤ u) →
      inp.dernier_changement = some dc → s.last_update_timestamp = some t0 →
      t0 < dc →
      (verifier_triggers s now inp ok).state.last_update_timestamp = some dc) ∧
    (∀ (s : SyncState) (now : Nat) (inp : PollInput) (ok : Bool) (dc t0 : Nat),
      s.rebuild_en_cours = false → inp.indexExists = true → inp.mysqlOk = true →
      (∀ u, inp.uptime = some u → AUTO_SYNC_MYSQL_UPTIME_THRESHOLD ≤ u) →
      inp.dernier_changement = some dc → s.last_update_timestamp = some t0 →
      t0 < dc →
      ∀ (now2 : Nat) (inp2 : PollInput) (ok2 : Bool) (dc2 : Nat),
        inp2.indexExists = true → inp2.mysqlOk = true →
        (∀ u, inp2.uptime = some u → AUTO_SYNC_MYSQL_UPTIME_THRESHOLD ≤ u) →
        inp2.dernier_changement = some dc2 → dc2 ≤ dc →
        (verifier_triggers (verifier_triggers s now inp ok).state now2 inp2
          ok2).rebuilt = false ∧
        (verifier_triggers (verifier_triggers s now inp ok).state now2 inp2
          ok2).state = (verifier_triggers s now inp ok).state) := by
  have key : ∀ (s : SyncState) (now : Nat) (inp : PollInput) (ok : Bool)
      (dc t0 : Nat), s.rebuild_en_cours = false → inp.indexExists = true →
      inp.mysqlOk = true →
      (∀ u, inp.uptime = some u → AUTO_SYNC_MYSQL_UPTIME_THRESHOLD ≤ u) →
      inp.dernier_changement = some dc → s.last_update_timestamp = some t0 →
      t0 < dc →
      (verifier_triggers s now inp ok).state =
        { (declencher_rebuild s now ok).state with
          last_update_timestamp := some dc } := by
    intro s now inp ok dc t0 hrc hie hmo hup hdc hbase hlt
    rw [verifier_reaches_trigger3 s now inp ok hrc hie hmo hup,
        verifier_trigger3_fires s now inp ok dc t0 hdc hbase hlt]
  constructor
  · intro s now inp ok dc t0 hrc hie hmo hup hdc hbase hlt
    rw [key s now inp ok dc t0 hrc hie hmo hup hdc hbase hlt]
  · intro s now inp ok dc t0 hrc hie hmo hup hdc hbase hlt
    intro now2 inp2 ok2 dc2 hie2 hmo2 hup2 hdc2 hle
    have hst := key s now inp ok dc t0 hrc hie hmo hup hdc hbase hlt
    have hrc2 : (verifier_triggers s now inp ok).state.rebuild_en_cours = false := by
      rw [hst]
      show (declencher_rebuild s now ok).state.rebuild_en_cours = false
      rw [declencher_rebuild_en_cours]
      exact hrc
    have hbase2 : (verifier_triggers s now inp ok).state.last_update_timestamp =
        some dc := by
      rw [hst]
    rw [verifier_reaches_trigger3 _ now2 inp2 ok2 hrc2 hie2 hmo2 hup2,
        verifier_trigger3_sans_changement _ now2 inp2 ok2 dc2 dc hdc2 hbase2
          (Nat.not_lt.2 hle)]
    exact ⟨rfl, rfl⟩

/-- Witness for C9: a concrete modification observed 10 seconds after a
rebuild is dropped, yet the baseline advances to 20, and a later identical
observation does not rebuild. -/
theorem C9_baseline_advances_on_drop_witness :
    (verifier_triggers
      { last_update_timestamp := some 10, rebuild_en_cours := false,
        dernier_rebuild_timestamp := some 90 } 100
      { indexExists := true, mysqlOk := true, uptime := some 301,
        dernier_changement := some 20 } false).state.last_update_timestamp =
      some 20 ∧
    (verifier_triggers
      (verifier_triggers
        { last_update_timestamp := some 10, rebuild_en_cours := false,
          dernier_rebuild_timestamp := some 90 } 100
        { indexExists := true, mysqlOk := true, uptime := some 301,
          dernier_changement := some 20 } false).state 160
      { indexExists := true, mysqlOk := true, uptime := some 301,
        dernier_changement := some 20 } true).rebuilt = false :=
  ⟨C9_baseline_advances_on_drop.1
      { last_update_timestamp := some 10, rebuild_en_cours := false,
        dernier_rebuild_timestamp := some 90 } 100
      { indexExists := true, mysqlOk := true, uptime := some 301,
        dernier_changement := some 20 } false 20 10 rfl rfl rfl
      (by intro u hu; cases hu; decide) rfl rfl (by decide),
   (C9_baseline_advances_on_drop.2
      { last_update_timestamp := some 10, rebuild_en_cours := false,
        dernier_rebuild_timestamp := some 90 } 100
      { indexExists := true, mysqlOk := true, uptime := some 301,
        dernier_changement := some 20 } false 20 10 rfl rfl rfl
      (by intro u hu; cases hu; decide) rfl rfl (by decide) 160
      { indexExists := true, mysqlOk := true, uptime := some 301,
        dernier_changement := some 20 } true 20 rfl rfl
      (by intro u hu; cases hu; decide) rfl (by decide)).1⟩

/-- C1 counterexample: a rebuild over a published index of 2 vectors whose
batch encoding fails leaves the published in-memory index EMPTY (vector
count 0, id mapping []), not the pre-rebuild index with its 2 vectors:
rebuild_depuis_mysql re-creates the live index in place before encoding. -/
theorem C1_counterexample :
    (rebuild_depuis_mysql id (fun ts => ts.map (fun _ => [1]))
      { dimension := 2, index := [[1, 0], [0, 1]], id_mapping := [10, 20] }
      { indexFile := .content (2, [[1, 0], [0, 1]]),
        mappingFile := .content [10, 20] }
      { queryOk := true, rows := [(5, "q", "r")], encodeOk := false,
        saveOk := true }).outcome =
      .error "Erreur rebuild FAISS: echec encodeur" ∧
    (rebuild_depuis_mysql id (fun ts => ts.map (fun _ => [1]))
      { dimension := 2, index := [[1, 0], [0, 1]], id_mapping := [10, 20] }
      { indexFile := .content (2, [[1, 0], [0, 1]]),
        mappingFile := .content [10, 20] }
      { queryOk := true, rows := [(5, "q", "r")], encodeOk := false,
        saveOk := true }).state.ntotal = 0 ∧
    (rebuild_depuis_mysql id (fun ts => ts.map (fun _ => [1]))
      { dimension := 2, index := [[1, 0], [0, 1]], id_mapping := [10, 20] }
      { indexFile := .content (2, [[1, 0], [0, 1]]),
        mappingFile := .content [10, 20] }
      { queryOk := true, rows := [(5, "q", "r")], encodeOk := false,
        saveOk := true }).state.id_mapping = [] ∧
    ({ dimension := 2, index := [[1, 0], [0, 1]],
       id_mapping := [10, 20] } : IndexFAISS).ntotal = 2 :=
  ⟨rfl, rfl, rfl, rfl⟩

/-- C1 amended: only a failure at the source query step leaves the
published index unchanged; once the rows are fetched the rebuild mutates
the live index in place, so an encoding failure leaves an EMPTY index
published (with the on-disk files untouched) and a save failure leaves the
fully rebuilt index published in memory; there is no construct-then-swap. -/
theorem C1_rebuild_mutates_in_place (normalize : Vec → Vec)
    (encode : List String → List Vec) (s : IndexFAISS) (d : Disk)
    (env : RebuildEnv) :
    (env.queryOk = false →
      (rebuild_depuis_mysql normalize encode s d env).state = s ∧
      (rebuild_depuis_mysql normalize encode s d env).disk = d) ∧
    (env.queryOk = true → env.rows ≠ [] → env.encodeOk = false →
      (rebuild_depuis_mysql normalize encode s d env).outcome =
        .error "Erreur rebuild FAISS: echec encodeur" ∧
      (rebuild_depuis_mysql normalize encode s d env).state =
        creer_index s.dimension ∧
      (rebuild_depuis_mysql normalize encode s d env).disk = d) ∧
    (env.queryOk = true → env.rows ≠ [] → env.encodeOk = true →
      (encode (rebuild_textes env.rows)).length = env.rows.length →
      env.saveOk = false →
      (rebuild_depuis_mysql normalize encode s d env).outcome =
        .error "Erreur rebuild FAISS: echec sauvegarde" ∧
      (rebuild_depuis_mysql normalize encode s d env).state =
        { dimension := s.dimension,
          index := (encode (rebuild_textes env.rows)).map normalize,
          id_mapping := rebuild_ids env.rows } ∧
      (rebuild_depuis_mysql normalize encode s d env).disk = d) := by
  refine ⟨?_, ?_, ?_⟩
  · intro hq
    rw [rebuild_query_fail normalize encode s d env hq]
    exact ⟨rfl, rfl⟩
  · intro hq hr he
    rw [rebuild_encode_fail normalize encode s d env hq hr he]
    exact ⟨rfl, rfl, rfl⟩
  · intro hq hr he hlen hs
    rw [rebuild_save_fail normalize encode s d env hq hr he hlen hs]
    exact ⟨rfl, rfl, rfl⟩

/-- Witness for C1 amended: concrete encoding failure empties the
published index. -/
theorem C1_rebuild_mutates_in_place_witness :
    (rebuild_depuis_mysql id (fun ts => ts.map (fun _ => [2]))
      { dimension := 3, index := [[7]], id_mapping := [4] }
      { indexFile := .absent, mappingFile := .absent }
      { queryOk := true, rows := [(1, "a", "b")], encodeOk := false,
        saveOk := true }).state = creer_index 3 :=
  ((C1_rebuild_mutates_in_place id (fun ts => ts.map (fun _ => [2]))
      { dimension := 3, index := [[7]], id_mapping := [4] }
      { indexFile := .absent, mappingFile := .absent }
      { queryOk := true, rows := [(1, "a", "b")], encodeOk := false,
        saveOk := true }).2.1 rfl (by decide) rfl).2.1

/-- C2 counterexample: loading a persisted index of dimension 512 holding
one vector while the configured dimension is 768 keeps the loaded vectors
and adopts dimension 512; it does not create an empty index with the
configured dimension. -/
theorem C2_counterexample :
    charger_index 768
      { indexFile := .content (512, [[1, 2]]), mappingFile := .content [7] } =
      { dimension := 512, index := [[1, 2]], id_mapping := [7] } ∧
    charger_index 768
      { indexFile := .content (512, [[1, 2]]), mappingFile := .content [7] } ≠
      creer_index 768 ∧
    (charger_index 768
      { indexFile := .content (512, [[1, 2]]),
        mappingFile := .content [7] }).dimension ≠ 768 ∧
    (charger_index 768
      { indexFile := .content (512, [[1, 2]]),
        mappingFile := .content [7] }).ntotal ≠ 0 := by
  refine ⟨by decide, by decide, by decide, by decide⟩

/-- C2 amended: an absent structure file, an unreadable structure file or
an unreadable mapping file each produce a fresh empty index with the
configured dimension (absence and load failure are recovered, never fatal);
but when the structure file loads with a dimension different from the
configured one, the loaded index is kept as is and its own dimension
replaces the configured one - no empty index is created in that case. -/
theorem C2_load_recovery (cfg : Nat) (d : Disk) :
    (d.indexFile = .absent → charger_index cfg d = creer_index cfg) ∧
    (d.indexFile = .corrupt → charger_index cfg d = creer_index cfg) ∧
    (d.mappingFile = .corrupt → charger_index cfg d = creer_index cfg) ∧
    (∀ di vs, d.indexFile = .content (di, vs) → d.mappingFile ≠ .corrupt →
      (charger_index cfg d).dimension = di ∧ (charger_index cfg d).index = vs) := by
  refine ⟨?_, ?_, ?_, ?_⟩
  · intro h
    unfold charger_index
    rw [h]
  · intro h
    unfold charger_index
    rw [h]
  · intro h
    unfold charger_index
    rcases hif : d.indexFile with _ | _ | ⟨di, vs⟩
    · rfl
    · rfl
    · rw [h]
  · intro di vs hif hm
    unfold charger_index
    rw [hif]
    rcases hmf : d.mappingFile with _ | _ | m
    · by_cases hdi : di = cfg <;> simp [hdi]
    · exact absurd hmf hm
    · by_cases hdi : di = cfg <;> simp [hdi]

/-- Witness for C2 amended: a concrete absent file and a concrete
mismatched-dimension load. -/
theorem C2_load_recovery_witness :
    charger_index 768 { indexFile := .absent, mappingFile := .absent } =
      creer_index 768 ∧
    (charger_index 768
      { indexFile := .content (512, [[3]]),
        mappingFile := .content [9] }).dimension = 512 :=
  ⟨(C2_load_recovery 768 { indexFile := .absent, mappingFile := .absent }).1 rfl,
   ((C2_load_recovery 768
      { indexFile := .content (512, [[3]]), mappingFile := .content [9] }).2.2.2
      512 [[3]] rfl (by decide)).1⟩

/-- C3 counterexample: saving an index holding one vector with mapping [5]
over a disk whose mapping file holds [9] passes through the reachable
intermediate state in which the structure file is already updated while
the mapping file still holds the stale [9]: the save is two direct writes
at the final paths, not a temp-write plus atomic rename-swap. -/
theorem C3_counterexample :
    sauvegarder_states { dimension := 2, index := [[1, 0]], id_mapping := [5] }
        { indexFile := .content (2, []), mappingFile := .content [9] } =
      [{ indexFile := .content (2, []), mappingFile := .content [9] },
       { indexFile := .content (2, [[1, 0]]), mappingFile := .content [9] },
       { indexFile := .content (2, [[1, 0]]), mappingFile := .content [5] }] ∧
    (sauvegarder_apres_index
        { dimension := 2, index := [[1, 0]], id_mapping := [5] }
        { indexFile := .content (2, []), mappingFile := .content [9] }).indexFile =
      .content (2, [[1, 0]]) ∧
    (sauvegarder_apres_index
        { dimension := 2, index := [[1, 0]], id_mapping := [5] }
        { indexFile := .content (2, []), mappingFile := .content [9] }).mappingFile =
      .content [9] ∧
    ([9] : List Int) ≠ [5] := by
  refine ⟨rfl, rfl, rfl, by decide⟩

/-- C3 amended: sauvegarder updates the two coupled artifacts by two
direct sequential writes at their final paths - structure file first, then
mapping file - with no temporary path and no rename step; after the call
both artifacts hold the in-memory state, but the intermediate on-disk
state between the two writes has the structure updated while the mapping
is still stale. -/
theorem C3_save_two_direct_writes (s : IndexFAISS) (d : Disk) :
    sauvegarder_states s d =
      [d, sauvegarder_apres_index s d, sauvegarder_final s d] ∧
    (sauvegarder_final s d).indexFile = .content (s.dimension, s.index) ∧
    (sauvegarder_final s d).mappingFile = .content s.id_mapping ∧
    (sauvegarder_apres_index s d).indexFile = .content (s.dimension, s.index) ∧
    (sauvegarder_apres_index s d).mappingFile = d.mappingFile :=
  ⟨rfl, rfl, rfl, rfl, rfl⟩

/-- C4 counterexample: loading a persisted structure holding one vector
whose mapping file is absent yields an index with ntotal = 1 but an empty
id mapping: the coherence check of the loader only logs a warning, so the
invariant does not hold after this load. -/
theorem C4_counterexample :
    (charger_index 768
      { indexFile := .content (768, [[1]]),
        mappingFile := .absent }).id_mapping.length = 0 ∧
    (charger_index 768
      { indexFile := .content (768, [[1]]), mappingFile := .absent }).ntotal = 1 ∧
    (0 : Nat) ≠ 1 := by
  refine ⟨by decide, by decide, by decide⟩

/-- C4 amended: the invariant len(id_mapping) = ntotal holds after
create-empty, after a successful add (which appends the two parallel
arrays, so position alignment is preserved), and after a fully successful
rebuild; after load it holds when the persisted artifacts are consistent
(or when a fresh index is created), but an absent or inconsistent mapping
file is only logged and the mismatched lengths are kept. -/
theorem C4_mapping_invariant (dim : Nat) (normalize : Vec → Vec)
    (encode : List String → List Vec) (d : Disk) (env : RebuildEnv)
    (s s2 : IndexFAISS) (vecteurs : List Vec) (ids : List Int) (b : Bool) :
    ((creer_index dim).id_mapping.length = (creer_index dim).ntotal) ∧
    (s.id_mapping.length = s.ntotal →
      ajouter_vecteurs normalize s vecteurs ids b = .ok s2 →
      s2.id_mapping.length = s2.ntotal ∧
      s2.index = s.index ++ (if b then vecteurs.map normalize else vecteurs) ∧
      s2.id_mapping = s.id_mapping ++ ids) ∧
    (env.queryOk = true → env.rows ≠ [] → env.encodeOk = true →
      (encode (rebuild_textes env.rows)).length = env.rows.length →
      env.saveOk = true →
      (rebuild_depuis_mysql normalize encode s d env).state.id_mapping.length =
        (rebuild_depuis_mysql normalize encode s d env).state.ntotal) ∧
    (∀ di vs m, d.indexFile = .content (di, vs) → d.mappingFile = .content m →
      m.length = vs.length →
      (charger_index dim d).id_mapping.length = (charger_index dim d).ntotal) ∧
    ((d.indexFile = .absent ∨ d.indexFile = .corrupt ∨
        d.mappingFile = .corrupt) →
      (charger_index dim d).id_mapping.length = (charger_index dim d).ntotal) := by
  refine ⟨rfl, ?_, ?_, ?_, ?_⟩
  · intro hinv hadd
    by_cases hlen : ids.length = vecteurs.length
    · rw [ajouter_vecteurs_ok normalize s vecteurs ids b hlen] at hadd
      injection hadd with hadd
      subst hadd
      refine ⟨?_, rfl, rfl⟩
      simp only [IndexFAISS.ntotal, List.length_append] at hinv ⊢
      cases b <;> simp [List.length_map] <;> omega
    · unfold ajouter_vecteurs at hadd
      simp [hlen] at hadd
  · intro hq hr he hlen hs
    rw [rebuild_all_ok normalize encode s d env hq hr he hlen hs]
    simp only [IndexFAISS.ntotal, List.length_map, rebuild_ids]
    exact hlen.symm
  · intro di vs m hif hmf hlen
    unfold charger_index
    rw [hif, hmf]
    by_cases hdi : di = dim <;> simp [hdi, IndexFAISS.ntotal, hlen]
  · intro h
    rcases h with h | h | h
    · unfold charger_index
      rw [h]
      rfl
    · unfold charger_index
      rw [h]
      rfl
    · unfold charger_index
      rcases hif : d.indexFile with _ | _ | ⟨di, vs⟩
      · rfl
      · rfl
      · rw [h]
        rfl

/-- Witness for C4 amended on a concrete add to a consistent index. -/
theorem C4_mapping_invariant_witness :
    ajouter_vecteurs id { dimension := 1, index := [[2]], id_mapping := [6] }
      [[3]] [8] false =
      .ok { dimension := 1, index := [[2], [3]], id_mapping := [6, 8] } →
    ({ dimension := 1, index := [[2], [3]],
       id_mapping := [6, 8] } : IndexFAISS).id_mapping.length =
      ({ dimension := 1, index := [[2], [3]],
         id_mapping := [6, 8] } : IndexFAISS).ntotal :=
  fun h =>
    ((C4_mapping_invariant 1 id (fun _ => [])
        { indexFile := .absent, mappingFile := .absent }
        { queryOk := true, rows := [], encodeOk := true, saveOk := true }
        { dimension := 1, index := [[2]], id_mapping := [6] }
        { dimension := 1, index := [[2], [3]], id_mapping := [6, 8] }
        [[3]] [8] false).2.1 rfl h).1

/-- C7 counterexample: searching an empty index with k = 4 and a query of
length 5 (configured dimension 768) returns the sentinel ([0.0], [-1]) -
one result, although min(k, count) = 0, and no dimension-mismatch error is
raised even though the query dimension disagrees. -/
theorem C7_counterexample :
    rechercher (fun _ _ kk => (List.replicate kk 0, List.replicate kk 0)) id
      (creer_index 768) (List.replicate 5 1) (some 4) = .ok ([0], [-1]) ∧
    ((([0] : List Rat).length = 1 ∧ min 4 (creer_index 768).ntotal = 0) ∧
     (List.replicate 5 (1 : Rat)).length ≠ (creer_index 768).dimension) := by
  refine ⟨rfl, by decide, by decide⟩

/-- C7 amended: for a nonzero requested k (a zero or missing k falls back
to the default FAISS_TOP_K) and a search function honouring the FAISS
shape contract, a search on an EMPTY index returns the one-element
sentinel pair ([0.0], [-1]) without any dimension check; on a non-empty
index a query of mismatched dimension raises a dimension error, and a
matching query returns exactly min(k, count) scores and positions. -/
theorem C7_search_clamp_sentinel
    (srch : List Vec → Vec → Nat → List Rat × List Int)
    (normalize : Vec → Vec) (s : IndexFAISS) (q : Vec) (k : Nat) (hk : k ≠ 0)
    (hsrch : ∀ vs qq kk,
      (srch vs qq kk).1.length = kk ∧ (srch vs qq kk).2.length = kk) :
    (s.ntotal = 0 → rechercher srch normalize s q (some k) = .ok ([0], [-1])) ∧
    (s.ntotal ≠ 0 → q.length ≠ s.dimension →
      rechercher srch normalize s q (some k) =
        .error "Erreur recherche FAISS: dimension du vecteur differente de la dimension attendue") ∧
    (s.ntotal ≠ 0 → q.length = s.dimension →
      rechercher srch normalize s q (some k) =
        .ok (srch s.index (normalize q) (min k s.ntotal)) ∧
      (srch s.index (normalize q) (min k s.ntotal)).1.length = min k s.ntotal ∧
      (srch s.index (normalize q) (min k s.ntotal)).2.length = min k s.ntotal) := by
  refine ⟨?_, ?_, ?_⟩
  · intro h0
    unfold rechercher
    simp [hk, h0]
  · intro h0 hq
    have hne : min k s.ntotal ≠ 0 := by omega
    unfold rechercher
    simp [hk, hne, hq]
  · intro h0 hq
    have hne : min k s.ntotal ≠ 0 := by omega
    unfold rechercher
    simp [hk, hne, hq]
    exact ⟨(hsrch s.index (normalize q) (min k s.ntotal)).1,
           (hsrch s.index (normalize q) (min k s.ntotal)).2⟩

/-- Witness for C7 amended: a concrete one-vector index searched with
k = 2 returns exactly min(2, 1) = 1 result. -/
theorem C7_search_clamp_sentinel_witness :
    rechercher (fun _ _ kk => (List.replicate kk 0, List.replicate kk 0)) id
      { dimension := 1, index := [[1]], id_mapping := [3] } [1] (some 2) =
      .ok ([0], [0]) := by
  have h := (C7_search_clamp_sentinel
      (fun _ _ kk => (List.replicate kk 0, List.replicate kk 0)) id
      { dimension := 1, index := [[1]], id_mapping := [3] } [1] 2 (by decide)
      (fun vs qq kk => ⟨by simp, by simp⟩)).2.2 (by decide) (by decide)
  rw [h.1]
  rfl

end MilaAssist
